import Mathlib

/-!
Shallow embedding of the authservice program (src/authservice.go) and
proofs about its request validator, schema introspector, handler error
mapping and JWT issuance.

Conventions of the embedding:
* A Go struct type used as a request schema is modelled as a `ResFields`
  value (the ordered field list that `reflect` iterates with
  `NumField`/`Field i`).
* The parsed form of a request (`c.FormParams()`, a `url.Values` map) is
  modelled as an association list with distinct keys; `c.FormValue`
  returns the stored value or the empty string when the key is absent.
* The external collaborators (`user.CreateUser`, `user.AuthUser`, the
  filesystem, the clock, RSA signing) are inputs to the embedded
  functions: each handler receives the collaborator outcome it would
  observe, and `generateJwt` receives the file-read result, the two
  clock readings it performs and the signing outcome.
-/

namespace AuthService

/-- The `reflect.Kind` of a non-struct field type. The Go code only ever
tests whether a kind equals `reflect.Struct`; all other kinds are listed
here so that kinds that are neither `String` nor `Struct` are
representable. -/
inductive GoKind where
  | stringKind
  | intKind
  | chanKind
  | funcKind
deriving DecidableEq, Repr

mutual

/-- One field of a resource struct, as seen through `reflect`:
`scalar name kind` is a field whose type kind is not `reflect.Struct`
(for example `Email string`), and `struc name children` is a field whose
type kind is `reflect.Struct` (for example the embedded `authUserReq`). -/
inductive ResField where
  | scalar (name : String) (kind : GoKind)
  | struc (name : String) (children : ResFields)

/-- The ordered field list of a resource struct: the sequence of fields
that `reflect` iterates with `NumField`/`Field i`, in declaration
order. -/
inductive ResFields where
  | nil
  | cons (f : ResField) (rest : ResFields)

end

/-- Embedding of `getResourceFields` (authservice.go:147-161): iterate the
fields of the resource struct in declaration order; when a field has kind
`reflect.Struct`, recurse into it and append the recursive result,
otherwise append the field name. -/
def getResourceFields : ResFields → List String
  | ResFields.nil => []
  | ResFields.cons (ResField.scalar name _) rest =>
      name :: getResourceFields rest
  | ResFields.cons (ResField.struc _ children) rest =>
      getResourceFields children ++ getResourceFields rest

/-- Embedding of the Go error variable `StructNotRecognized`
(authservice.go:143). The Go source declares this error but never
returns it anywhere: `getResourceFields` has no error result. -/
def StructNotRecognized : String :=
  "Arguement resource string not recognized past into getStructFields."

/-- The struct `authUserReq` (authservice.go:70-73): two string fields. -/
def authUserReq : ResFields :=
  ResFields.cons (ResField.scalar "UserID" GoKind.stringKind)
    (ResFields.cons (ResField.scalar "Password" GoKind.stringKind)
      ResFields.nil)

/-- The struct `createUserReq` (authservice.go:24-27): the embedded
struct `authUserReq` followed by the string field `Email`. -/
def createUserReq : ResFields :=
  ResFields.cons (ResField.struc "authUserReq" authUserReq)
    (ResFields.cons (ResField.scalar "Email" GoKind.stringKind)
      ResFields.nil)

/-- A parsed request form: an association list from field name to string
value. Go stores this as a map, so keys are distinct; the list length
is the key count `len(reqForm)`. -/
abbrev Request : Type := List (String × String)

/-- Embedding of `c.FormValue key`: the stored value for `key`, or the
empty string when `key` is absent from the form. -/
def formValue (req : Request) (key : String) : String :=
  match List.find? (fun p => p.1 == key) req with
  | some p => p.2
  | none => ""

/-- The two error values returned by `validateContext`
(authservice.go:110-111). -/
inductive ValidationError where
  | reqLengthStructLengthNotEqual
  | reqFieldsStructFieldsNotEqual
deriving DecidableEq, Repr

/-- The loop of `validateContext` (authservice.go:133-138): walk the
expected field names in order and return `ReqFieldsStructFieldsNotEqual`
at the first name whose `FormValue` is the empty string. -/
def checkFields (req : Request) : List String → Option ValidationError
  | [] => none
  | v :: rest =>
      if formValue req v == "" then
        some ValidationError.reqFieldsStructFieldsNotEqual
      else
        checkFields req rest

/-- Embedding of `validateContext` (authservice.go:118-141): compute the
flattened field list of the resource struct, reject with
`ReqLengthStructLengthNotEqual` when the form key count differs from the
flattened field count, then reject with `ReqFieldsStructFieldsNotEqual`
at any expected field whose value is absent or empty; otherwise accept
with `nil`, returning the request values untouched. -/
def validateContext (resource : ResFields) (req : Request) :
    Option ValidationError :=
  let fields := getResourceFields resource
  if req.length ≠ fields.length then
    some ValidationError.reqLengthStructLengthNotEqual
  else
    checkFields req fields

/-- Embedding of `user.AuthCredentials`: the credential pair that
`createUser` and `authUser` build from the form values. -/
structure AuthCredentials where
  UserID : String
  Password : String
deriving DecidableEq, Repr

/-- Embedding of `user.User`: the embedded `AuthCredentials` plus the
`Email` field, as built by `createUser` (authservice.go:46-52). -/
structure User where
  creds : AuthCredentials
  Email : String
deriving DecidableEq, Repr

/-- Outcome of the external call `user.CreateUser`: `none` is success,
`some userAlreadyExists` is the error value `user.UserAlreadyExists` the
handler switches on, and `some other` is any other error. -/
inductive CreateErr where
  | userAlreadyExists
  | other
deriving DecidableEq, Repr

/-- Outcome of the external call `user.AuthUser`: `none` is success,
`some unauthorized` is a credential rejection, `some other` is any other
(infrastructure) error. The Go handler never inspects which error it
received. -/
inductive AuthErr where
  | unauthorized
  | other
deriving DecidableEq, Repr

/-- Result of the `createUser` handler: the HTTP status it responds
with, and the argument the external `user.CreateUser` was invoked with
(`none` when the gateway was not called). -/
structure CreateResult where
  status : Nat
  gatewayCall : Option User
deriving DecidableEq, Repr

/-- Embedding of the `createUser` handler (authservice.go:38-66):
validate the request against `createUserReq`; on failure respond 400
without touching the gateway; otherwise build the `user.User` from the
form values, call `user.CreateUser`, and map its outcome — success to
201 Created, `user.UserAlreadyExists` to 409 Conflict, any other error
to 500 Internal Server Error. `gw` is the external collaborator. -/
def createUser (req : Request) (gw : User → Option CreateErr) :
    CreateResult :=
  match validateContext createUserReq req with
  | some _ => { status := 400, gatewayCall := none }
  | none =>
      let u : User :=
        { creds := { UserID := formValue req "UserID",
                     Password := formValue req "Password" },
          Email := formValue req "Email" }
      match gw u with
      | none => { status := 201, gatewayCall := some u }
      | some CreateErr.userAlreadyExists =>
          { status := 409, gatewayCall := some u }
      | some CreateErr.other => { status := 500, gatewayCall := some u }

/-- Errors of `generateJwt`, one per early return in the Go function:
the key file could not be read, the PEM bytes did not parse to an RSA
key, or `SignedString` failed. -/
inductive JwtError where
  | keyUnavailable
  | keyMalformed
  | signingFailed
deriving DecidableEq, Repr

/-- A JWT claim value: the issued claims are strings (`iss`, `sub`,
`aud`) and Unix-second integers (`exp`, `iat`). -/
inductive ClaimValue where
  | str (s : String)
  | int (n : Int)
deriving DecidableEq, Repr

/-- The signed token produced by `generateJwt`, abstracted to what the
claims describe: the claim map written into `jwt.MapClaims` (an
association list in assignment order; the five keys are distinct) and
the RSA key the token was signed with. -/
structure Token where
  claims : List (String × ClaimValue)
  key : Nat
deriving DecidableEq, Repr

/-- The environment one invocation of `generateJwt` observes:
`readFileResult` is what `ioutil.ReadFile` of the fixed key path
returns at this call (`none` when the read fails), `parseKeyResult` is
the outcome of `jwt.ParseRSAPrivateKeyFromPEM` on given bytes (RSA keys
abstracted to `Nat`), `signFails` tells whether `SignedString` errors,
and `nowExp`, `nowIat` are the Unix-UTC-second readings of the two
separate `time.Now()` calls the function performs — first the one on
the `exp` assignment line, then the one on the `iat` line. -/
structure JwtEnv where
  readFileResult : Option String
  parseKeyResult : String → Option Nat
  signFails : Bool
  nowExp : Int
  nowIat : Int

/-- Embedding of `generateJwt` (authservice.go:164-194): read the key
file (every call, from the hardcoded path), build the claim map with
exactly `iss`, `sub`, `aud`, `exp`, `iat` in that assignment order
— `exp` is `time.Now().UTC().AddDate(0, 0, 7).Unix()`, which in UTC is
the first clock reading plus 604800 seconds, and `iat` is the second
clock reading — then parse the PEM bytes and sign. Each failing step
returns its error. -/
def generateJwt (env : JwtEnv) (UserID : String) :
    Except JwtError Token :=
  match env.readFileResult with
  | none => Except.error JwtError.keyUnavailable
  | some p =>
      let claims : List (String × ClaimValue) :=
        [("iss", ClaimValue.str "Auth-Service"),
         ("sub", ClaimValue.str UserID),
         ("aud", ClaimValue.str "Moment-Service"),
         ("exp", ClaimValue.int (env.nowExp + 604800)),
         ("iat", ClaimValue.int env.nowIat)]
      match env.parseKeyResult p with
      | none => Except.error JwtError.keyMalformed
      | some key =>
          if env.signFails then Except.error JwtError.signingFailed
          else Except.ok { claims := claims, key := key }

/-- A sequence of `generateJwt` invocations for the same subject, one
per element of `envs`: each call reads the key file and the clock
afresh, so each observes its own environment. -/
def issueTrace (envs : List JwtEnv) (UserID : String) :
    List (Except JwtError Token) :=
  envs.map (fun env => generateJwt env UserID)

/-- Result of the `authUser` handler: the HTTP status, the credentials
the external `user.AuthUser` was invoked with (`none` when it was not
called), and the token placed in the `jwt` response header (`none` when
no token was issued). -/
structure AuthResult where
  status : Nat
  authCall : Option AuthCredentials
  jwtHeader : Option Token
deriving DecidableEq, Repr

/-- Embedding of the `authUser` handler (authservice.go:82-108):
validate against `authUserReq` (400 on failure, gateway untouched);
build `user.AuthCredentials` from the form values and call
`user.AuthUser` — any error at all maps to 401 Unauthorized; then call
`generateJwt` with the `UserID` form value — any error maps to 500;
on success set the `jwt` header and respond 200. -/
def authUser (req : Request) (gw : AuthCredentials → Option AuthErr)
    (env : JwtEnv) : AuthResult :=
  match validateContext authUserReq req with
  | some _ => { status := 400, authCall := none, jwtHeader := none }
  | none =>
      let aC : AuthCredentials :=
        { UserID := formValue req "UserID",
          Password := formValue req "Password" }
      match gw aC with
      | some _ => { status := 401, authCall := some aC, jwtHeader := none }
      | none =>
          match generateJwt env (formValue req "UserID") with
          | Except.error _ =>
              { status := 500, authCall := some aC, jwtHeader := none }
          | Except.ok t =>
              { status := 200, authCall := some aC, jwtHeader := some t }

/-- Lookup in the parsed form that distinguishes an absent key from a
key stored with the empty string: `none` when the key is not in the
form, `some val` when it is stored with value `val`. Used to state that
the validator treats both cases alike. -/
def formLookup (req : Request) (key : String) : Option String :=
  Option.map Prod.snd (List.find? (fun p => p.1 == key) req)

/-- Big-step description of one invocation of `getResourceFields`: a
derivation `FlattenStep s out` records the recursive calls one run of
the Go function performs on the field list `s` and the slice `out` it
returns. Used to state that the flattening is deterministic across
invocations. -/
inductive FlattenStep : ResFields → List String → Prop where
  | nil : FlattenStep ResFields.nil []
  | scalar (name : String) (kind : GoKind) (rest : ResFields)
      (out : List String) (h : FlattenStep rest out) :
      FlattenStep (ResFields.cons (ResField.scalar name kind) rest)
        (name :: out)
  | struc (name : String) (children rest : ResFields)
      (cout rout : List String) (hc : FlattenStep children cout)
      (hr : FlattenStep rest rout) :
      FlattenStep (ResFields.cons (ResField.struc name children) rest)
        (cout ++ rout)

/-- The schema of the flatten-completeness spec example: a leaf `C`
declared after a group `G` containing the leaves `A` and `B`. -/
def groupExample : ResFields :=
  ResFields.cons
    (ResField.struc "G"
      (ResFields.cons (ResField.scalar "A" GoKind.stringKind)
        (ResFields.cons (ResField.scalar "B" GoKind.stringKind)
          ResFields.nil)))
    (ResFields.cons (ResField.scalar "C" GoKind.stringKind)
      ResFields.nil)

/-- A request carrying exactly the two fields of `authUserReq`, both
non-empty. -/
def reqBobPw : Request := [("UserID", "bob"), ("Password", "pw")]

/-- The happy-path request of the spec example: `{UserID: "bob",
Password: "secret"}`. -/
def reqBobSecret : Request := [("UserID", "bob"), ("Password", "secret")]

/-- The blank-as-missing request of the spec example: `{UserID: "bob",
Password: ""}` — the `Password` key is present but holds the empty
string. -/
def reqBlankPassword : Request := [("UserID", "bob"), ("Password", "")]

/-- The strict-equality request of the spec example: `{UserID: "bob",
Password: "x", Extra: "y"}` — three fields against a two-field
schema. -/
def reqExtraField : Request :=
  [("UserID", "bob"), ("Password", "x"), ("Extra", "y")]

/-- A request carrying exactly the three fields of `createUserReq`, all
non-empty. -/
def reqFull : Request :=
  [("UserID", "bob"), ("Password", "secret"), ("Email", "bob@x.io")]

/-- An environment in which every step of `generateJwt` succeeds and
both clock readings fall in the same Unix second. -/
def envGood : JwtEnv :=
  { readFileResult := some "PEMBYTES",
    parseKeyResult := fun _ => some 1,
    signFails := false,
    nowExp := 100,
    nowIat := 100 }

/-- An environment in which reading the key file fails (the file is
absent or unreadable at this call). -/
def envNoKey : JwtEnv :=
  { readFileResult := none,
    parseKeyResult := fun _ => some 1,
    signFails := false,
    nowExp := 100,
    nowIat := 100 }

/-- An environment in which every step succeeds but the second
`time.Now()` reading (for `iat`) falls one second after the first (for
`exp`): the call straddles a second boundary. -/
def envSkewed : JwtEnv :=
  { readFileResult := some "PEMBYTES",
    parseKeyResult := fun _ => some 1,
    signFails := false,
    nowExp := 0,
    nowIat := 1 }

/-- When every expected field has a non-empty value in the form, the
field loop of `validateContext` reports no error. -/
theorem checkFields_eq_none (req : Request) :
    ∀ fields : List String,
      (∀ v ∈ fields, formValue req v ≠ "") →
      checkFields req fields = none := by
  intro fields
  induction fields with
  | nil => intro _; rfl
  | cons f rest ih =>
      intro h
      have hf : formValue req f ≠ "" := h f (List.mem_cons_self f rest)
      have hb : (formValue req f == "") = false :=
        beq_eq_false_iff_ne.mpr hf
      simp only [checkFields, hb, Bool.false_eq_true, if_false]
      exact ih (fun v hv => h v (List.mem_cons_of_mem f hv))

/-- When some expected field has the empty value in the form, the field
loop of `validateContext` reports `ReqFieldsStructFieldsNotEqual`. -/
theorem checkFields_eq_some (req : Request) :
    ∀ fields : List String, ∀ v ∈ fields, formValue req v = "" →
      checkFields req fields =
        some ValidationError.reqFieldsStructFieldsNotEqual := by
  intro fields
  induction fields with
  | nil => intro v hv; exact absurd hv (List.not_mem_nil v)
  | cons f rest ih =>
      intro v hv hempty
      by_cases hf : formValue req f = ""
      · have hb : (formValue req f == "") = true := beq_iff_eq.mpr hf
        simp only [checkFields, hb, if_true]
      · have hb : (formValue req f == "") = false :=
          beq_eq_false_iff_ne.mpr hf
        simp only [checkFields, hb, Bool.false_eq_true, if_false]
        rcases List.mem_cons.mp hv with heq | htl
        · exact absurd (heq ▸ hempty) hf
        · exact ih v htl hempty

/-- When the field loop of `validateContext` reports no error, every
expected field has a non-empty value in the form. -/
theorem formValue_ne_of_checkFields_none (req : Request) :
    ∀ fields : List String, checkFields req fields = none →
      ∀ v ∈ fields, formValue req v ≠ "" := by
  intro fields
  induction fields with
  | nil => intro _ v hv; exact absurd hv (List.not_mem_nil v)
  | cons f rest ih =>
      intro h v hv
      by_cases hf : formValue req f = ""
      · have hb : (formValue req f == "") = true := beq_iff_eq.mpr hf
        simp only [checkFields, hb, if_true] at h
        exact absurd h (Option.some_ne_none _)
      · have hb : (formValue req f == "") = false :=
          beq_eq_false_iff_ne.mpr hf
        simp only [checkFields, hb, Bool.false_eq_true, if_false] at h
        rcases List.mem_cons.mp hv with heq | htl
        · exact heq ▸ hf
        · exact ih h v htl

/-- A request accepted by `validateContext` has exactly as many form
keys as the flattened schema has fields, and every flattened field has
a non-empty value. -/
theorem validateContext_none_elim (resource : ResFields) (req : Request)
    (h : validateContext resource req = none) :
    req.length = (getResourceFields resource).length ∧
      ∀ v ∈ getResourceFields resource, formValue req v ≠ "" := by
  by_cases hlen : req.length = (getResourceFields resource).length
  · refine ⟨hlen, ?_⟩
    simp only [validateContext, hlen, ne_eq, not_true_eq_false, if_false] at h
    exact formValue_ne_of_checkFields_none req _ h
  · simp only [validateContext, ne_eq, hlen, not_false_eq_true, if_true] at h
    exact absurd h (Option.some_ne_none _)

/-- In a form with distinct keys, `FormValue` returns exactly the value
stored with the key. -/
theorem formValue_eq_of_mem_nodup : ∀ req : Request,
    (req.map Prod.fst).Nodup →
    ∀ k val, (k, val) ∈ req → formValue req k = val := by
  intro req
  induction req with
  | nil => intro _ k val h; exact absurd h (List.not_mem_nil _)
  | cons p rest ih =>
      intro hnodup k val hmem
      rw [List.map_cons] at hnodup
      have hnodup2 := List.nodup_cons.mp hnodup
      rcases List.mem_cons.mp hmem with heq | htl
      · subst heq
        simp [formValue, List.find?_cons]
      · have hk : p.1 ≠ k := by
          intro hkk
          exact hnodup2.1 (hkk ▸ List.mem_map_of_mem Prod.fst htl)
        have hb : (p.1 == k) = false := beq_eq_false_iff_ne.mpr hk
        have hrec := ih hnodup2.2 k val htl
        simp only [formValue] at hrec
        simp only [formValue, List.find?_cons, hb]
        exact hrec

/-- A key that is absent from the form or stored with the empty string
yields the empty string under `FormValue`: the two cases are
indistinguishable to the validator. -/
theorem formValue_empty_of_formLookup (req : Request) (k : String)
    (h : formLookup req k = none ∨ formLookup req k = some "") :
    formValue req k = "" := by
  unfold formLookup at h
  unfold formValue
  cases hf : List.find? (fun p => p.1 == k) req with
  | none => rfl
  | some p =>
      rcases h with h | h
      · rw [hf] at h
        exact absurd h (by simp)
      · rw [hf] at h
        simpa using h

/-- Every run of `getResourceFields` produces a derivation of
`FlattenStep`: the big-step description is total and agrees with the
function. -/
theorem flattenStep_total : ∀ s : ResFields,
    FlattenStep s (getResourceFields s)
  | ResFields.nil => FlattenStep.nil
  | ResFields.cons (ResField.scalar name kind) rest =>
      FlattenStep.scalar name kind rest _ (flattenStep_total rest)
  | ResFields.cons (ResField.struc name children) rest =>
      FlattenStep.struc name children rest _ _
        (flattenStep_total children) (flattenStep_total rest)

/-- Two derivations of `FlattenStep` for the same field list produce
the same output: the flattening relation is a function of the schema
alone. -/
theorem flattenStep_functional (s : ResFields) (out₁ out₂ : List String)
    (h₁ : FlattenStep s out₁) (h₂ : FlattenStep s out₂) : out₁ = out₂ := by
  induction h₁ generalizing out₂ with
  | nil => cases h₂; rfl
  | scalar name kind rest out h ih =>
      cases h₂ with
      | scalar _ _ _ out2 h2 => rw [ih out2 h2]
  | struc name children rest cout rout hc hr ihc ihr =>
      cases h₂ with
      | struc _ _ _ cout2 rout2 hc2 hr2 =>
          rw [ihc cout2 hc2, ihr rout2 hr2]

/-- When validation fails, `createUser` responds 400 without calling
the gateway. -/
theorem createUser_invalid (req : Request) (gwC : User → Option CreateErr)
    (e : ValidationError) (h : validateContext createUserReq req = some e) :
    createUser req gwC = { status := 400, gatewayCall := none } := by
  simp only [createUser, h]

/-- When validation succeeds, `createUser` calls the gateway with the
`user.User` built from the three form values. -/
theorem createUser_gatewayCall_eq (req : Request)
    (gwC : User → Option CreateErr)
    (h : validateContext createUserReq req = none) :
    (createUser req gwC).gatewayCall =
      some { creds := { UserID := formValue req "UserID",
                        Password := formValue req "Password" },
             Email := formValue req "Email" } := by
  simp only [createUser, h]
  cases gwC { creds := { UserID := formValue req "UserID",
                         Password := formValue req "Password" },
              Email := formValue req "Email" } with
  | none => rfl
  | some e => cases e <;> rfl

/-- When validation fails, `authUser` responds 400 without calling the
gateway. -/
theorem authUser_invalid (req : Request)
    (gwA : AuthCredentials → Option AuthErr) (env : JwtEnv)
    (e : ValidationError) (h : validateContext authUserReq req = some e) :
    authUser req gwA env =
      { status := 400, authCall := none, jwtHeader := none } := by
  simp only [authUser, h]

/-- When validation succeeds, `authUser` calls the gateway with the
`user.AuthCredentials` built from the two form values. -/
theorem authUser_authCall_eq (req : Request)
    (gwA : AuthCredentials → Option AuthErr) (env : JwtEnv)
    (h : validateContext authUserReq req = none) :
    (authUser req gwA env).authCall =
      some { UserID := formValue req "UserID",
             Password := formValue req "Password" } := by
  simp only [authUser, h]
  cases gwA { UserID := formValue req "UserID",
              Password := formValue req "Password" } with
  | some e => rfl
  | none =>
      cases generateJwt env (formValue req "UserID") with
      | error e => rfl
      | ok t => rfl

/-- C1 counterexample: `generateJwt` reads the clock twice — first for
the `exp` line, then again for the `iat` line. In `envSkewed`, where
the second reading falls one second after the first, the issued claim
set has `exp = 604800` but `iat = 1`, so expires-at does not equal
issued-at plus 604800: the invariant claimed for every issued token
fails. -/
theorem generateJwt_two_clock_reads :
    generateJwt envSkewed "bob" =
      Except.ok { claims := [("iss", ClaimValue.str "Auth-Service"),
                             ("sub", ClaimValue.str "bob"),
                             ("aud", ClaimValue.str "Moment-Service"),
                             ("exp", ClaimValue.int 604800),
                             ("iat", ClaimValue.int 1)],
                  key := 1 } ∧
    (604800 : Int) ≠ 1 + 604800 :=
  ⟨rfl, by decide⟩

/-- C1 amended: when the key file reads, the PEM parses and signing
succeeds, the issued claim set is exactly the five claims
`iss = "Auth-Service"`, `sub = s`, `aud = "Moment-Service"`,
`exp = tFirst + 604800` and `iat = tSecond`, where `tFirst` and
`tSecond` are the two successive `time.Now()` readings of the call;
whenever the two readings return the same Unix second `now` — as they
do in any call that does not straddle a second boundary — the payload
is exactly `{iss, sub: s, aud, iat: now, exp: now + 604800}` and
nothing else. -/
theorem generateJwt_claims_exact (env : JwtEnv) (s p : String) (k : Nat)
    (hread : env.readFileResult = some p)
    (hparse : env.parseKeyResult p = some k)
    (hsign : env.signFails = false)
    (hnow : env.nowExp = env.nowIat) :
    generateJwt env s =
      Except.ok { claims := [("iss", ClaimValue.str "Auth-Service"),
                             ("sub", ClaimValue.str s),
                             ("aud", ClaimValue.str "Moment-Service"),
                             ("exp", ClaimValue.int (env.nowIat + 604800)),
                             ("iat", ClaimValue.int env.nowIat)],
                  key := k } := by
  simp only [generateJwt, hread, hparse, hsign, hnow, Bool.false_eq_true,
    if_false]

/-- C1 witness: in the all-good environment with both clock readings at
Unix second 100, the issued claims are exactly the five required ones
with `iat = 100` and `exp = 100 + 604800`. -/
theorem generateJwt_claims_exact_witness :
    generateJwt envGood "bob" =
      Except.ok { claims := [("iss", ClaimValue.str "Auth-Service"),
                             ("sub", ClaimValue.str "bob"),
                             ("aud", ClaimValue.str "Moment-Service"),
                             ("exp", ClaimValue.int (100 + 604800)),
                             ("iat", ClaimValue.int 100)],
                  key := 1 } :=
  generateJwt_claims_exact envGood "bob" "PEMBYTES" 1 rfl rfl rfl rfl

/-- C2: whenever the number of form keys differs from the number of
flattened schema fields — in either direction, so a request with
extra, unexpected fields exactly like one with missing fields — the
validator rejects with `ReqLengthStructLengthNotEqual`: a strict
equality check, not a subset check. -/
theorem validateContext_rejects_count_mismatch (resource : ResFields)
    (req : Request)
    (h : req.length ≠ (getResourceFields resource).length) :
    validateContext resource req =
      some ValidationError.reqLengthStructLengthNotEqual := by
  simp only [validateContext, ne_eq, h, not_false_eq_true, if_true]

/-- C2 witness: the spec example — `{UserID, Password, Extra}`, three
fields against the two-field auth schema — is rejected with the count
error. -/
theorem validateContext_rejects_count_mismatch_witness :
    validateContext authUserReq reqExtraField =
      some ValidationError.reqLengthStructLengthNotEqual :=
  validateContext_rejects_count_mismatch authUserReq reqExtraField
    (by decide)

/-- C3 counterexample: on the login path the handler collapses the
gateway outcomes. With a well-formed request, a gateway `Other`
(infrastructure) error produces status 401 — the very same
caller-visible outcome as `Unauthorized`, not a server-error outcome:
the code maps every `user.AuthUser` error to 401. -/
theorem authUser_other_collapsed :
    (authUser reqBobPw (fun _ => some AuthErr.other) envGood).status
        = 401 ∧
    (authUser reqBobPw (fun _ => some AuthErr.unauthorized) envGood).status
        = 401 :=
  ⟨rfl, rfl⟩

/-- C3 amended: on the create path the gateway outcomes stay distinct —
`UserAlreadyExists` maps to 409 Conflict while any other error maps to
500 — but on the login path the handler maps every `user.AuthUser`
error, `Unauthorized` and `Other` alike, to 401: the credential error
and the infrastructure error are kept distinct on the create path only
and are collapsed into one outcome on the login path. -/
theorem error_mapping_by_path (reqC reqA : Request) (env : JwtEnv)
    (hc : validateContext createUserReq reqC = none)
    (ha : validateContext authUserReq reqA = none) :
    (createUser reqC (fun _ => some CreateErr.userAlreadyExists)).status
        = 409 ∧
    (createUser reqC (fun _ => some CreateErr.other)).status = 500 ∧
    (authUser reqA (fun _ => some AuthErr.unauthorized) env).status
        = 401 ∧
    (authUser reqA (fun _ => some AuthErr.other) env).status = 401 := by
  refine ⟨?_, ?_, ?_, ?_⟩ <;> simp [createUser, authUser, hc, ha]

/-- C3 witness: the concrete mapping at well-formed create and login
requests. -/
theorem error_mapping_by_path_witness :
    (createUser reqFull (fun _ => some CreateErr.userAlreadyExists)).status
        = 409 ∧
    (createUser reqFull (fun _ => some CreateErr.other)).status = 500 ∧
    (authUser reqBobPw (fun _ => some AuthErr.unauthorized) envGood).status
        = 401 ∧
    (authUser reqBobPw (fun _ => some AuthErr.other) envGood).status
        = 401 :=
  error_mapping_by_path reqFull reqBobPw envGood (by decide) (by decide)

/-- C4 counterexample: key loading is per-request, not once at startup.
In a two-call trace whose key file is readable at the first call and
unreadable at the second, the first issuance succeeds and the later
call nevertheless performs the file read and fails with the key-read
error — refuting that after one successful issuance no later call
performs key loading or can fail with `KeyUnavailable`. -/
theorem issueTrace_later_key_failure :
    issueTrace [envGood, envNoKey] "bob" =
      [Except.ok { claims := [("iss", ClaimValue.str "Auth-Service"),
                              ("sub", ClaimValue.str "bob"),
                              ("aud", ClaimValue.str "Moment-Service"),
                              ("exp", ClaimValue.int 604900),
                              ("iat", ClaimValue.int 100)],
                   key := 1 },
       Except.error JwtError.keyUnavailable] := rfl

/-- C4 amended: `generateJwt` reads the key file from its fixed path on
every invocation; a call whose file read fails returns the key error,
regardless of any earlier call having succeeded — key-file absence is
a per-request failure. -/
theorem generateJwt_reads_key_each_call (env₁ env₂ : JwtEnv)
    (s₁ s₂ : String) (t : Token)
    (_hok : generateJwt env₁ s₁ = Except.ok t)
    (hfail : env₂.readFileResult = none) :
    generateJwt env₂ s₂ = Except.error JwtError.keyUnavailable := by
  simp only [generateJwt, hfail]

/-- C4 witness: after the successful call in `envGood`, the call in
`envNoKey` fails with the key-read error. -/
theorem generateJwt_reads_key_each_call_witness :
    generateJwt envNoKey "bob" = Except.error JwtError.keyUnavailable :=
  generateJwt_reads_key_each_call envGood envNoKey "bob" "bob"
    { claims := [("iss", ClaimValue.str "Auth-Service"),
                 ("sub", ClaimValue.str "bob"),
                 ("aud", ClaimValue.str "Moment-Service"),
                 ("exp", ClaimValue.int 604900),
                 ("iat", ClaimValue.int 100)],
      key := 1 } rfl rfl

/-- C5 counterexample: the validator does distinguish an omitted field
from a blank one when the omission changes the field count. Omitting
`Password` from `{UserID: "bob"}` is rejected with the count error
`ReqLengthStructLengthNotEqual`, while supplying `Password: ""` is
rejected with `ReqFieldsStructFieldsNotEqual` — two different errors,
and the absent case does not produce `FieldMissingOrEmpty` as the
claim states. -/
theorem validateContext_distinguishes_absent :
    validateContext authUserReq [("UserID", "bob")] =
      some ValidationError.reqLengthStructLengthNotEqual ∧
    validateContext authUserReq reqBlankPassword =
      some ValidationError.reqFieldsStructFieldsNotEqual ∧
    ValidationError.reqLengthStructLengthNotEqual ≠
      ValidationError.reqFieldsStructFieldsNotEqual :=
  ⟨rfl, rfl, by decide⟩

/-- C5 amended: once the field-count check has passed, an expected
field that is absent from the form or present with the empty string is
rejected with `ReqFieldsStructFieldsNotEqual`, and the two cases are
treated identically — both read back as the empty string through
`FormValue`; when the count check fails first, the rejection is the
count error instead. -/
theorem validateContext_missing_or_empty (resource : ResFields)
    (req : Request) (v : String)
    (hlen : req.length = (getResourceFields resource).length)
    (hmem : v ∈ getResourceFields resource)
    (hval : formLookup req v = none ∨ formLookup req v = some "") :
    validateContext resource req =
      some ValidationError.reqFieldsStructFieldsNotEqual := by
  have hempty := formValue_empty_of_formLookup req v hval
  simp only [validateContext, ne_eq, hlen, not_true_eq_false,
    Bool.false_eq_true, if_false]
  exact checkFields_eq_some req _ v hmem hempty

/-- C5 witness: the spec example `{UserID: "bob", Password: ""}` — the
`Password` key present but blank — is rejected with the
missing-or-empty error. -/
theorem validateContext_missing_or_empty_witness :
    validateContext authUserReq reqBlankPassword =
      some ValidationError.reqFieldsStructFieldsNotEqual :=
  validateContext_missing_or_empty authUserReq reqBlankPassword "Password"
    (by decide) (by decide) (Or.inr (by decide))

/-- C6: `getResourceFields` flattens the schema tree depth-first — a
scalar field contributes its own name, a struct field contributes its
children flattened recursively, and concatenation follows declaration
order. In particular the spec example, a leaf `C` declared after a
group containing leaves `A` and `B`, flattens to exactly `[A, B, C]`
of length 3, and the in-repo schema `createUserReq` (embedded group
then `Email`) flattens to `[UserID, Password, Email]`. -/
theorem getResourceFields_depth_first :
    (∀ (name : String) (kind : GoKind) (rest : ResFields),
        getResourceFields
            (ResFields.cons (ResField.scalar name kind) rest) =
          name :: getResourceFields rest) ∧
    (∀ (name : String) (children rest : ResFields),
        getResourceFields
            (ResFields.cons (ResField.struc name children) rest) =
          getResourceFields children ++ getResourceFields rest) ∧
    getResourceFields groupExample = ["A", "B", "C"] ∧
    (getResourceFields groupExample).length = 3 ∧
    getResourceFields createUserReq = ["UserID", "Password", "Email"] :=
  ⟨fun _ _ _ => rfl, fun _ _ _ => rfl, rfl, rfl, rfl⟩

/-- C7: a request that has exactly as many form keys as the flattened
schema has fields and supplies a non-empty string for every expected
field is accepted — `validateContext` returns `nil` — and no value is
transformed: with the distinct keys a Go form map guarantees,
`FormValue` returns for every supplied pair exactly the opaque string
that was supplied. -/
theorem validateContext_accepts_untouched (resource : ResFields)
    (req : Request)
    (hnodup : (req.map Prod.fst).Nodup)
    (hlen : req.length = (getResourceFields resource).length)
    (hfull : ∀ v ∈ getResourceFields resource, formValue req v ≠ "") :
    validateContext resource req = none ∧
      ∀ p ∈ req, formValue req p.1 = p.2 := by
  constructor
  · simp only [validateContext, ne_eq, hlen, not_true_eq_false,
      Bool.false_eq_true, if_false]
    exact checkFields_eq_none req _ hfull
  · intro p hp
    exact formValue_eq_of_mem_nodup req hnodup p.1 p.2 hp

/-- C7 witness: the spec example `{UserID: "bob", Password: "secret"}`
against the auth schema is accepted, and its values read back
unchanged. -/
theorem validateContext_accepts_untouched_witness :
    validateContext authUserReq reqBobSecret = none ∧
      formValue reqBobSecret "UserID" = "bob" := by
  have h := validateContext_accepts_untouched authUserReq reqBobSecret
    (by decide) (by decide) (by decide)
  exact ⟨h.1, h.2 ("UserID", "bob") (by decide)⟩

/-- C8: `getResourceFields` cannot fail — its only result is the name
slice. A field whose type kind is neither a leaf scalar of the schema
(a string) nor `reflect.Struct` — here a channel-typed field and a
func-typed field — is silently treated like a leaf and its name
emitted; the error `StructNotRecognized` declared for this case is
never returned anywhere in the source. The spec instead requires a
`SchemaKindUnrecognized` failure, handled rather than ignored. -/
theorem getResourceFields_never_fails :
    getResourceFields
        (ResFields.cons (ResField.scalar "Done" GoKind.chanKind)
          ResFields.nil) = ["Done"] ∧
    getResourceFields
        (ResFields.cons (ResField.scalar "Callback" GoKind.funcKind)
          ResFields.nil) = ["Callback"] :=
  ⟨rfl, rfl⟩

/-- C9: flattening and validation are pure and deterministic — any two
runs of `getResourceFields` on the same field list (any two
derivations of the big-step description `FlattenStep`) return the same
ordered sequence, every run returns exactly what `getResourceFields`
computes, and re-running `validateContext` on the same request and
schema yields the identical decision each call. -/
theorem flatten_validate_deterministic :
    (∀ (s : ResFields) (out₁ out₂ : List String),
        FlattenStep s out₁ → FlattenStep s out₂ → out₁ = out₂) ∧
    (∀ s : ResFields, FlattenStep s (getResourceFields s)) ∧
    (∀ (resource : ResFields) (req : Request),
        validateContext resource req = validateContext resource req) :=
  ⟨flattenStep_functional, flattenStep_total, fun _ _ => rfl⟩

/-- C9 witness: an explicit second derivation for the concrete schema
`authUserReq` returns the same sequence the function computes. -/
theorem flatten_validate_deterministic_witness :
    (["UserID", "Password"] : List String) =
      getResourceFields authUserReq :=
  flatten_validate_deterministic.1 authUserReq _ _
    (FlattenStep.scalar "UserID" GoKind.stringKind _ _
      (FlattenStep.scalar "Password" GoKind.stringKind ResFields.nil []
        FlattenStep.nil))
    (flatten_validate_deterministic.2.1 authUserReq)

/-- C10: the credential gateway is only invoked with non-empty
credential strings. When `createUser` calls `user.CreateUser`, the
`UserID`, `Password` and `Email` it passes are all non-empty; when
`authUser` calls `user.AuthUser`, the `UserID` and `Password` are
non-empty; and when validation fails, neither handler calls its
gateway at all. -/
theorem gateway_calls_validated (req : Request)
    (gwC : User → Option CreateErr)
    (gwA : AuthCredentials → Option AuthErr) (env : JwtEnv)
    (u : User) (aC : AuthCredentials) :
    ((createUser req gwC).gatewayCall = some u →
        u.creds.UserID ≠ "" ∧ u.creds.Password ≠ "" ∧ u.Email ≠ "") ∧
    ((authUser req gwA env).authCall = some aC →
        aC.UserID ≠ "" ∧ aC.Password ≠ "") ∧
    (validateContext createUserReq req ≠ none →
        (createUser req gwC).gatewayCall = none) ∧
    (validateContext authUserReq req ≠ none →
        (authUser req gwA env).authCall = none) := by
  refine ⟨?_, ?_, ?_, ?_⟩
  · intro h
    cases hvc : validateContext createUserReq req with
    | some e =>
        rw [createUser_invalid req gwC e hvc] at h
        exact absurd h (Option.some_ne_none u).symm
    | none =>
        rw [createUser_gatewayCall_eq req gwC hvc] at h
        have hu := Option.some.inj h
        have hne := (validateContext_none_elim createUserReq req hvc).2
        rw [← hu]
        exact ⟨hne "UserID" (by decide), hne "Password" (by decide),
          hne "Email" (by decide)⟩
  · intro h
    cases hva : validateContext authUserReq req with
    | some e =>
        rw [authUser_invalid req gwA env e hva] at h
        exact absurd h (Option.some_ne_none aC).symm
    | none =>
        rw [authUser_authCall_eq req gwA env hva] at h
        have ha := Option.some.inj h
        have hne := (validateContext_none_elim authUserReq req hva).2
        rw [← ha]
        exact ⟨hne "UserID" (by decide), hne "Password" (by decide)⟩
  · intro h
    cases hvc : validateContext createUserReq req with
    | some e => rw [createUser_invalid req gwC e hvc]
    | none => exact absurd hvc h
  · intro h
    cases hva : validateContext authUserReq req with
    | some e => rw [authUser_invalid req gwA env e hva]
    | none => exact absurd hva h

/-- C10 witness: at the concrete three-field create request, the
gateway is called with the non-empty `bob`, `secret` and `bob@x.io`. -/
theorem gateway_calls_validated_witness :
    ({ creds := { UserID := "bob", Password := "secret" },
       Email := "bob@x.io" } : User).creds.UserID ≠ "" ∧
    ({ creds := { UserID := "bob", Password := "secret" },
       Email := "bob@x.io" } : User).creds.Password ≠ "" ∧
    ({ creds := { UserID := "bob", Password := "secret" },
       Email := "bob@x.io" } : User).Email ≠ "" :=
  (gateway_calls_validated reqFull (fun _ => none) (fun _ => none) envGood
      { creds := { UserID := "bob", Password := "secret" },
        Email := "bob@x.io" }
      { UserID := "bob", Password := "secret" }).1 (by decide)

end AuthService
